import Mathlib

/-!
# Deploy-then-upgrade workflow of `poap-upgrade`

Shallow embedding of `scripts/upgrade.js` and `test/upgrade.js`.

Both files drive an external upgrade framework (`ethers.getContractFactory`,
`upgrades.deployProxy`, `upgrades.upgradeProxy`).  The framework is a parameter
of the embedding: every external call is a state transformer that either
resolves with a value or rejects with an error.  The asynchronous functions of
the source become functions that thread the framework state, log each external
call together with its result, and stop at the first rejection (the meaning of
`await p.then(f)` when `p` or `f` rejects).
-/

/-! ## JavaScript values occurring in the sources -/

/-- The JavaScript values handed to the framework: strings, booleans, array
literals and object literals. -/
inductive JSValue where
  | str (s : String)
  | bool (b : Bool)
  | arr (items : List JSValue)
  | obj (fields : List (String × JSValue))

/-- Property lookup `o[key]` on an object literal; `none` stands for `undefined`. -/
def JSValue.getProp : JSValue → String → Option JSValue
  | .obj fields, key => (fields.find? (fun kv => kv.1 == key)).map (fun kv => kv.2)
  | _, _ => none

/-! ## The external framework -/

/-- The external collaborators the sources call.  `σ` is the state of the outside
world (compiler cache, chain, plugin manifest), `Factory` what
`ethers.getContractFactory` resolves to, `Proxy` what `upgrades.deployProxy`
and `upgrades.upgradeProxy` resolve to, `Err` the rejection values. -/
structure Framework (σ Factory Proxy Err : Type) where
  getContractFactory : String → σ → Except Err Factory × σ
  deployProxy : Factory → JSValue → JSValue → σ → Except Err Proxy × σ
  upgradeProxy : Proxy → Factory → JSValue → σ → Except Err Proxy × σ

/-- One external call, with its arguments and the result it settled with. -/
inductive Event (Factory Proxy Err : Type) where
  | getContractFactory (name : String) (result : Except Err Factory)
  | deployProxy (factory : Factory) (args : JSValue) (opts : JSValue)
      (result : Except Err Proxy)
  | upgradeProxy (proxy : Proxy) (factory : Factory) (opts : JSValue)
      (result : Except Err Proxy)

/-- The error an external call rejected with, if it rejected. -/
def Event.rejection {Factory Proxy Err : Type} : Event Factory Proxy Err → Option Err
  | .getContractFactory _ (.error e) => some e
  | .deployProxy _ _ _ (.error e) => some e
  | .upgradeProxy _ _ _ (.error e) => some e
  | _ => none

/-- Whether the event is a call of `upgrades.upgradeProxy`. -/
def Event.isUpgrade {Factory Proxy Err : Type} : Event Factory Proxy Err → Bool
  | .upgradeProxy _ _ _ _ => true
  | _ => false

/-- Whether the event is a call of `upgrades.deployProxy`. -/
def Event.isDeploy {Factory Proxy Err : Type} : Event Factory Proxy Err → Bool
  | .deployProxy _ _ _ _ => true
  | _ => false

/-- Whether the event is a call of `ethers.getContractFactory` for `name`. -/
def Event.isFactoryOf {Factory Proxy Err : Type} (name : String) :
    Event Factory Proxy Err → Bool
  | .getContractFactory n _ => n == name
  | _ => false

/-- A finished run of an asynchronous function of the sources: the external
calls in the order they were made, the settlement of the returned promise and
the state of the outside world afterwards. -/
structure Run (σ Factory Proxy Err : Type) where
  calls : List (Event Factory Proxy Err)
  outcome : Except Err Unit
  final : σ

/-! ## `scripts/upgrade.js` -/

namespace Scripts

/-- The asynchronous function `main` of `scripts/upgrade.js` (lines 3-17). -/
def main {σ Factory Proxy Err : Type} (fw : Framework σ Factory Proxy Err) (s0 : σ) :
    Run σ Factory Proxy Err :=
  -- ethers.getContractFactory('Poap')
  match fw.getContractFactory "Poap" s0 with
  | (.error e, s1) => ⟨[.getContractFactory "Poap" (.error e)], .error e, s1⟩
  | (.ok factory, s1) =>
    -- .then(factory => upgrades.deployProxy(factory, [...], { initializer: ... }))
    let args := JSValue.arr [.str "Poap", .str "POAP", .str "somebase/", .arr []]
    let opts := JSValue.obj [("initializer", .str "initialize(string,string,string,address[])")]
    match fw.deployProxy factory args opts s1 with
    | (.error e, s2) =>
      ⟨[.getContractFactory "Poap" (.ok factory),
        .deployProxy factory args opts (.error e)], .error e, s2⟩
    | (.ok proxy, s2) =>
      -- ethers.getContractFactory('PoapV2')
      match fw.getContractFactory "PoapV2" s2 with
      | (.error e, s3) =>
        ⟨[.getContractFactory "Poap" (.ok factory),
          .deployProxy factory args opts (.ok proxy),
          .getContractFactory "PoapV2" (.error e)], .error e, s3⟩
      | (.ok factory2, s3) =>
        -- .then(factory => upgrades.upgradeProxy(proxy, factory, {}))
        match fw.upgradeProxy proxy factory2 (.obj []) s3 with
        | (.error e, s4) =>
          ⟨[.getContractFactory "Poap" (.ok factory),
            .deployProxy factory args opts (.ok proxy),
            .getContractFactory "PoapV2" (.ok factory2),
            .upgradeProxy proxy factory2 (.obj []) (.error e)], .error e, s4⟩
        | (.ok proxy2, s4) =>
          ⟨[.getContractFactory "Poap" (.ok factory),
            .deployProxy factory args opts (.ok proxy),
            .getContractFactory "PoapV2" (.ok factory2),
            .upgradeProxy proxy factory2 (.obj []) (.ok proxy2)], .ok (), s4⟩

/-- What the operating system sees of one run of the script. -/
structure ProcessResult (Err : Type) where
  stderr : List Err
  exitCode : Nat

/-- The top level of `scripts/upgrade.js` (lines 19-24):
`main().then(() => process.exit(0)).catch(error => { console.error(error); process.exit(1) })`. -/
def script {σ Factory Proxy Err : Type} (fw : Framework σ Factory Proxy Err) (s0 : σ) :
    ProcessResult Err :=
  match (main fw s0).outcome with
  | .ok _ => ⟨[], 0⟩
  | .error error => ⟨[error], 1⟩

end Scripts

/-! ## `test/upgrade.js` -/

/-- The body of the test `storage layout consistency` of `test/upgrade.js`
(lines 3-15). -/
def storageLayoutConsistency {σ Factory Proxy Err : Type}
    (fw : Framework σ Factory Proxy Err) (s0 : σ) : Run σ Factory Proxy Err :=
  match fw.getContractFactory "Poap" s0 with
  | (.error e, s1) => ⟨[.getContractFactory "Poap" (.error e)], .error e, s1⟩
  | (.ok factory, s1) =>
    let args := JSValue.arr [.str "Poap", .str "POAP", .str "somebase/", .arr []]
    let opts := JSValue.obj [("initializer", .str "initialize(string,string,string,address[])")]
    match fw.deployProxy factory args opts s1 with
    | (.error e, s2) =>
      ⟨[.getContractFactory "Poap" (.ok factory),
        .deployProxy factory args opts (.error e)], .error e, s2⟩
    | (.ok proxy, s2) =>
      match fw.getContractFactory "PoapV2" s2 with
      | (.error e, s3) =>
        ⟨[.getContractFactory "Poap" (.ok factory),
          .deployProxy factory args opts (.ok proxy),
          .getContractFactory "PoapV2" (.error e)], .error e, s3⟩
      | (.ok factory2, s3) =>
        match fw.upgradeProxy proxy factory2 (.obj []) s3 with
        | (.error e, s4) =>
          ⟨[.getContractFactory "Poap" (.ok factory),
            .deployProxy factory args opts (.ok proxy),
            .getContractFactory "PoapV2" (.ok factory2),
            .upgradeProxy proxy factory2 (.obj []) (.error e)], .error e, s4⟩
        | (.ok proxy2, s4) =>
          ⟨[.getContractFactory "Poap" (.ok factory),
            .deployProxy factory args opts (.ok proxy),
            .getContractFactory "PoapV2" (.ok factory2),
            .upgradeProxy proxy factory2 (.obj []) (.ok proxy2)], .ok (), s4⟩

/-! ## Vocabulary of the properties -/

/-- The ways a run of the workflow can go, one per external call that may reject,
and the run in which all four calls resolve. -/
inductive Workflow {σ Factory Proxy Err : Type} (fw : Framework σ Factory Proxy Err) (s0 : σ) :
    Run σ Factory Proxy Err → Prop where
  | factoryRejected (e : Err) (s1 : σ)
      (h1 : fw.getContractFactory "Poap" s0 = (.error e, s1)) :
      Workflow fw s0 ⟨[.getContractFactory "Poap" (.error e)], .error e, s1⟩
  | deployRejected (factory : Factory) (e : Err) (s1 s2 : σ)
      (h1 : fw.getContractFactory "Poap" s0 = (.ok factory, s1))
      (h2 : fw.deployProxy factory
        (.arr [.str "Poap", .str "POAP", .str "somebase/", .arr []])
        (.obj [("initializer", .str "initialize(string,string,string,address[])")]) s1
          = (.error e, s2)) :
      Workflow fw s0 ⟨[.getContractFactory "Poap" (.ok factory),
        .deployProxy factory (.arr [.str "Poap", .str "POAP", .str "somebase/", .arr []])
          (.obj [("initializer", .str "initialize(string,string,string,address[])")])
          (.error e)], .error e, s2⟩
  | factory2Rejected (factory : Factory) (proxy : Proxy) (e : Err) (s1 s2 s3 : σ)
      (h1 : fw.getContractFactory "Poap" s0 = (.ok factory, s1))
      (h2 : fw.deployProxy factory
        (.arr [.str "Poap", .str "POAP", .str "somebase/", .arr []])
        (.obj [("initializer", .str "initialize(string,string,string,address[])")]) s1
          = (.ok proxy, s2))
      (h3 : fw.getContractFactory "PoapV2" s2 = (.error e, s3)) :
      Workflow fw s0 ⟨[.getContractFactory "Poap" (.ok factory),
        .deployProxy factory (.arr [.str "Poap", .str "POAP", .str "somebase/", .arr []])
          (.obj [("initializer", .str "initialize(string,string,string,address[])")])
          (.ok proxy),
        .getContractFactory "PoapV2" (.error e)], .error e, s3⟩
  | upgradeRejected (factory factory2 : Factory) (proxy : Proxy) (e : Err) (s1 s2 s3 s4 : σ)
      (h1 : fw.getContractFactory "Poap" s0 = (.ok factory, s1))
      (h2 : fw.deployProxy factory
        (.arr [.str "Poap", .str "POAP", .str "somebase/", .arr []])
        (.obj [("initializer", .str "initialize(string,string,string,address[])")]) s1
          = (.ok proxy, s2))
      (h3 : fw.getContractFactory "PoapV2" s2 = (.ok factory2, s3))
      (h4 : fw.upgradeProxy proxy factory2 (.obj []) s3 = (.error e, s4)) :
      Workflow fw s0 ⟨[.getContractFactory "Poap" (.ok factory),
        .deployProxy factory (.arr [.str "Poap", .str "POAP", .str "somebase/", .arr []])
          (.obj [("initializer", .str "initialize(string,string,string,address[])")])
          (.ok proxy),
        .getContractFactory "PoapV2" (.ok factory2),
        .upgradeProxy proxy factory2 (.obj []) (.error e)], .error e, s4⟩
  | resolved (factory factory2 : Factory) (proxy proxy2 : Proxy) (s1 s2 s3 s4 : σ)
      (h1 : fw.getContractFactory "Poap" s0 = (.ok factory, s1))
      (h2 : fw.deployProxy factory
        (.arr [.str "Poap", .str "POAP", .str "somebase/", .arr []])
        (.obj [("initializer", .str "initialize(string,string,string,address[])")]) s1
          = (.ok proxy, s2))
      (h3 : fw.getContractFactory "PoapV2" s2 = (.ok factory2, s3))
      (h4 : fw.upgradeProxy proxy factory2 (.obj []) s3 = (.ok proxy2, s4)) :
      Workflow fw s0 ⟨[.getContractFactory "Poap" (.ok factory),
        .deployProxy factory (.arr [.str "Poap", .str "POAP", .str "somebase/", .arr []])
          (.obj [("initializer", .str "initialize(string,string,string,address[])")])
          (.ok proxy),
        .getContractFactory "PoapV2" (.ok factory2),
        .upgradeProxy proxy factory2 (.obj []) (.ok proxy2)], .ok (), s4⟩

/-- Modelled from the spec: the parameter list of the "designated one-time-setup
function" (section 4.4) as a signature names it; the signature parser of the
framework is not part of the sources.  Given the characters after the opening
parenthesis, it returns the text up to the matching closing parenthesis, cut at the
commas outside nested parentheses, blanks dropped.  `depth` counts the nested
parentheses that are open and `cur` collects the current parameter in reverse. -/
def splitParams : List Char → Nat → List Char → List String
  | [], _, cur => [String.mk cur.reverse]
  | c :: rest, depth, cur =>
    if c = ')' then
      match depth with
      | 0 => [String.mk cur.reverse]
      | d + 1 => splitParams rest d (c :: cur)
    else if c = '(' then splitParams rest (depth + 1) (c :: cur)
    else if c = ',' ∧ depth = 0 then String.mk cur.reverse :: splitParams rest 0 []
    else if c = ' ' then splitParams rest depth cur
    else splitParams rest depth (c :: cur)

/-- Modelled from the spec: the parameter types named by a signature such as
`initialize(string,string,string,address[])` (section 4.4); the framework's own
parser is not part of the sources.  A signature without parameters, `f()`, names
none. -/
def signatureParams (sig : String) : List String :=
  match (sig.toList.dropWhile (fun c => c ≠ '(')).drop 1 with
  | [] => []
  | chars =>
    match splitParams chars 0 [] with
    | [""] => []
    | params => params

/-- Whether a character is a hexadecimal digit. -/
def isHexDigit (c : Char) : Bool :=
  ('0' ≤ c ∧ c ≤ '9') ∨ ('a' ≤ c ∧ c ≤ 'f') ∨ ('A' ≤ c ∧ c ≤ 'F')

/-- Modelled from the spec: whether a value is an address (sections 3 and 6), here
a string `0x` followed by forty hexadecimal digits; the framework's own address
check is not part of the sources. -/
def JSValue.isAddress : JSValue → Bool
  | .str s =>
    match s.toList with
    | '0' :: 'x' :: digits => digits.length == 40 && digits.all isHexDigit
    | _ => false
  | _ => false

/-- Modelled from the spec: whether an initializer argument "matches" a parameter
of the given type (section 4.4); the framework's own encoder is not part of the
sources.  It knows the parameter types `string`, `bool`, `address` and the lists
`string[]`, `bool[]`, `address[]`; for every other type it answers `false`. -/
def JSValue.hasShape : JSValue → String → Bool
  | .str _, "string" => true
  | .bool _, "bool" => true
  | v, "address" => v.isAddress
  | .arr items, "string[]" => items.all (fun v => match v with | .str _ => true | _ => false)
  | .arr items, "bool[]" => items.all (fun v => match v with | .bool _ => true | _ => false)
  | .arr items, "address[]" => items.all JSValue.isAddress
  | _, _ => false

/-- Modelled from the spec: whether an ordered argument list matches a parameter
list (section 4.4): as many arguments as parameters, each argument of the shape of
the parameter at its position. -/
def argsMatch : List JSValue → List String → Bool
  | [], [] => true
  | v :: vs, t :: ts => v.hasShape t && argsMatch vs ts
  | _, _ => false

/-! ## Storage layouts and their comparison

The repository leaves every storage-layout decision to the upgrades plugin behind
`upgrades.deployProxy` and `upgrades.upgradeProxy`; the plugin is not part of the
sources.  The specification describes the components that make these decisions.
They are modelled here from its sections 3 and 4.
-/

mutual
/-- Modelled from the spec: the TypeTag of section 3, a tagged value over
primitives, dynamic arrays, fixed arrays, mappings and structs; the sources hold no
type description. -/
inductive TypeTag where
  | Primitive (width : Nat)
  | DynamicArray
  | FixedArray (length : Nat) (elem : TypeTag)
  | Mapping (keyType valueType : TypeTag)
  | Struct (fields : List SlotDescriptor)
/-- Modelled from the spec: the SlotDescriptor of section 3 with its five fields
(the spec asks `byteSize > 0`); the sources hold no layout. -/
inductive SlotDescriptor where
  | mk (name : String) (declaredType : TypeTag) (byteOffset byteSize slotIndex : Nat)
end

/-- Modelled from the spec: the LayoutDescription of section 3, the ordered
sequence of the slots of one implementation version. -/
abbrev LayoutDescription := List SlotDescriptor

/-- Field `name` of a slot descriptor. -/
def SlotDescriptor.name : SlotDescriptor → String
  | .mk name _ _ _ _ => name

/-- Field `declaredType` of a slot descriptor. -/
def SlotDescriptor.declaredType : SlotDescriptor → TypeTag
  | .mk _ declaredType _ _ _ => declaredType

/-- Field `byteOffset` of a slot descriptor. -/
def SlotDescriptor.byteOffset : SlotDescriptor → Nat
  | .mk _ _ byteOffset _ _ => byteOffset

/-- Field `byteSize` of a slot descriptor. -/
def SlotDescriptor.byteSize : SlotDescriptor → Nat
  | .mk _ _ _ byteSize _ => byteSize

/-- Field `slotIndex` of a slot descriptor. -/
def SlotDescriptor.slotIndex : SlotDescriptor → Nat
  | .mk _ _ _ _ slotIndex => slotIndex

mutual
/-- Modelled from the spec: the test for an "identical TypeTag" of section 4.2,
structural equality of type tags. -/
def TypeTag.beq : TypeTag → TypeTag → Bool
  | .Primitive w, .Primitive w2 => w == w2
  | .DynamicArray, .DynamicArray => true
  | .FixedArray n t, .FixedArray n2 t2 => n == n2 && TypeTag.beq t t2
  | .Mapping k v, .Mapping k2 v2 => TypeTag.beq k k2 && TypeTag.beq v v2
  | .Struct fs, .Struct gs => SlotDescriptor.beqList fs gs
  | _, _ => false
/-- Modelled from the spec: identity of two slot descriptors, field by field, used
for the fields of a struct (section 3). -/
def SlotDescriptor.beq : SlotDescriptor → SlotDescriptor → Bool
  | .mk n t o s i, .mk n2 t2 o2 s2 i2 =>
    n == n2 && TypeTag.beq t t2 && o == o2 && s == s2 && i == i2
/-- Modelled from the spec: identity of two ordered field sequences (section 3). -/
def SlotDescriptor.beqList : List SlotDescriptor → List SlotDescriptor → Bool
  | [], [] => true
  | a :: as, b :: bs => SlotDescriptor.beq a b && SlotDescriptor.beqList as bs
  | _, _ => false
end

/-- Whether a type tag is a mapping. -/
def TypeTag.isMapping : TypeTag → Bool
  | .Mapping _ _ => true
  | _ => false

/-- Modelled from the spec: the two blocking classifications of section 4.2. -/
inductive Severity where
  | Unsafe
  | Unknown
  deriving DecidableEq

/-- Modelled from the spec: one reason of an UpgradeDecision (section 3).  The
spec's reason is a string "recorded with slot name and both types"; the parts of
that string are kept apart here.  `path` holds the indices leading to the slot: the
index in the layout, followed by the indices of the fields entered for a slot inside
a struct.  `oldType` is absent for a slot the new layout appends, `newType` for a
slot the new layout lacks. -/
structure Reason where
  path : List Nat
  slot : String
  severity : Severity
  oldType : Option TypeTag
  newType : Option TypeTag
  text : String

/-- Modelled from the spec: the UpgradeDecision of section 3. -/
inductive UpgradeDecision where
  | Safe
  | Unsafe (reasons : List Reason)
  | Unknown (reasons : List Reason)

/-- Modelled from the spec: what section 4.2 leaves open, a parameter of the
comparison.  `slotBytes` is the fixed size of a storage slot.  `ambiguous old new`
is the judgement that a change of a mapping's key or value type "cannot be proven
safe or unsafe without deeper semantic knowledge"; the spec names no such change,
so no property below fixes it. -/
structure ComparatorPolicy where
  slotBytes : Nat
  ambiguous : TypeTag → TypeTag → Bool

/-- The first byte a slot occupies, counted from the start of the storage. -/
def SlotDescriptor.firstByte (slotBytes : Nat) (s : SlotDescriptor) : Nat :=
  s.slotIndex * slotBytes + s.byteOffset

/-- The byte after the last byte a slot occupies. -/
def SlotDescriptor.endByte (slotBytes : Nat) (s : SlotDescriptor) : Nat :=
  s.firstByte slotBytes + s.byteSize

/-- The byte after the last slot of a layout, `prevEnd` for the empty layout. -/
def layoutEnd (slotBytes : Nat) : Nat → LayoutDescription → Nat
  | prevEnd, [] => prevEnd
  | _, s :: rest => layoutEnd slotBytes (s.endByte slotBytes) rest

/-- Modelled from the spec: whether a slot lies "strictly after" what ends at
`prevEnd`, "contiguous with no gap" (section 4.2).  By the packing rule of section
4.1 it either continues at `prevEnd` or starts the next storage slot. -/
def startsAfter (slotBytes prevEnd : Nat) (s : SlotDescriptor) : Bool :=
  s.firstByte slotBytes == prevEnd ||
    (s.byteOffset == 0 &&
      s.firstByte slotBytes == (prevEnd + slotBytes - 1) / slotBytes * slotBytes)

/-- Modelled from the spec: whether slots are appended after `prevEnd` one after the
other, contiguous with no gap (section 4.2). -/
def contiguousFrom (slotBytes : Nat) : Nat → List SlotDescriptor → Bool
  | _, [] => true
  | prevEnd, s :: rest =>
    startsAfter slotBytes prevEnd s && contiguousFrom slotBytes (s.endByte slotBytes) rest

/-- Modelled from the spec: the classification of a slot that is not compatible
with its counterpart (section 4.2).  A slot whose name, type, size, offset or index
changed is Unsafe.  The one exception is the ambiguous case: a mapping that kept its
name and its bytes and whose key or value type changed in a way the policy judges
ambiguous is Unknown. -/
def classifyChange (policy : ComparatorPolicy) (oldType newType : TypeTag) (sameRest : Bool) :
    Severity :=
  if sameRest && oldType.isMapping && newType.isMapping && policy.ambiguous oldType newType
  then .Unknown else .Unsafe

/-- Modelled from the spec: the text of the reason recorded for a slot that is not
compatible with its counterpart (section 4.2). -/
def changeText (policy : ComparatorPolicy) (oldType newType : TypeTag) (sameRest : Bool) :
    String :=
  if sameRest && oldType.isMapping && newType.isMapping && policy.ambiguous oldType newType
  then "mapping key or value type changed: cannot be proven safe or unsafe"
  else if sameRest then "type changed"
  else "slot renamed, resized or moved"

/-- Modelled from the spec: the check of the slots the new layout holds beyond the
length of the old one (section 4.2): a slot appended strictly after the previous
one, contiguous with no gap, is compatible; any other is Unsafe, slot gap or reuse.
`i` is the index of the first of these slots and `prevEnd` the end of the slot
before it. -/
def checkAppended (slotBytes : Nat) (path : List Nat) :
    Nat → Nat → List SlotDescriptor → List Reason
  | _, _, [] => []
  | i, prevEnd, s :: rest =>
    (if startsAfter slotBytes prevEnd s then []
     else [⟨path ++ [i], s.name, .Unsafe, none, some s.declaredType,
       "slot gap / reuse risk"⟩]) ++
      checkAppended slotBytes path (i + 1) (s.endByte slotBytes) rest

mutual
/-- Modelled from the spec: the comparison of one old slot with what the new layout
holds at the same index (section 4.2).  Identical slot (name, type tag, offset, size,
index): compatible, no reason.  Nothing at the index: Unsafe, slot gap.  Otherwise a
reason naming the slot and both types, classified by `classifyChange` (Unsafe for
every struct), followed for a struct by the reasons the same rules find among its
fields. -/
def compareSlot (policy : ComparatorPolicy) (path : List Nat) (i : Nat) :
    SlotDescriptor → Option SlotDescriptor → List Reason
  | .mk name t _ _ _, none =>
    [⟨path ++ [i], name, .Unsafe, some t, none, "slot gap / reuse risk"⟩]
  | .mk name t off size idx, some new =>
    let sameRest :=
      name == new.name && off == new.byteOffset && size == new.byteSize && idx == new.slotIndex
    if sameRest && t.beq new.declaredType then []
    else
      ⟨path ++ [i], name, classifyChange policy t new.declaredType sameRest,
        some t, some new.declaredType, changeText policy t new.declaredType sameRest⟩
        :: compareNested policy (path ++ [i]) t new.declaredType
/-- Modelled from the spec: the recursive comparison of struct-typed slots (section
4.2): the fields of the old struct against the fields of the new one, by the same
rules. -/
def compareNested (policy : ComparatorPolicy) (path : List Nat) : TypeTag → TypeTag → List Reason
  | .Struct fs, .Struct gs => compareFrom policy path 0 0 fs gs
  | _, _ => []
/-- Modelled from the spec: the walk of section 4.2 over both sequences in slot
order, index by index up to the length of the old layout, followed by the check of
the slots the new layout appends.  `i` is the index of the first slot of
`oldLayout` and `prevEnd` the end of the slot before it. -/
def compareFrom (policy : ComparatorPolicy) (path : List Nat) (i prevEnd : Nat) :
    List SlotDescriptor → List SlotDescriptor → List Reason
  | [], appended => checkAppended policy.slotBytes path i prevEnd appended
  | old :: olds, newLayout =>
    compareSlot policy path i old newLayout.head? ++
      compareFrom policy path (i + 1) (old.endByte policy.slotBytes) olds newLayout.tail
end

/-- Modelled from the spec: the LayoutComparator of section 4.2.  It returns
every reason found, in slot order: Safe when there is none, Unsafe when one of them
is Unsafe, Unknown when all of them are Unknown. -/
def LayoutComparator (policy : ComparatorPolicy) (oldLayout newLayout : LayoutDescription) :
    UpgradeDecision :=
  match compareFrom policy [] 0 0 oldLayout newLayout with
  | [] => .Safe
  | reasons =>
    if reasons.any (fun r => r.severity = .Unsafe) then .Unsafe reasons else .Unknown reasons

/-- Modelled from the spec: whether a decision blocks the upgrade; Unknown is a
blocking condition like Unsafe (section 4.2). -/
def UpgradeDecision.isBlocking : UpgradeDecision → Bool
  | .Safe => false
  | _ => true

/-- Modelled from the spec: the reasons a decision carries (section 3). -/
def UpgradeDecision.reasons : UpgradeDecision → List Reason
  | .Safe => []
  | .Unsafe reasons => reasons
  | .Unknown reasons => reasons

/-! ## Registry, deployer and orchestrator -/

/-- An account or contract address. -/
abbrev Address := Nat

/-- Modelled from the spec: the ProxyRecord of section 3. -/
structure ProxyRecord where
  proxyAddress : Address
  currentImplementation : Address
  adminAddress : Address
  lastLayout : LayoutDescription

/-- Modelled from the spec: the errors a chain collaborator fails with (section 7). -/
inductive ChainError where
  | Unauthorized
  | NetworkError
  | RevertError

/-- Modelled from the spec: the error taxonomy of section 7. -/
inductive Error where
  | UnsupportedType
  | DuplicateProxy
  | UnknownProxy
  | UpgradeBlocked (decision : UpgradeDecision)
  | chain (e : ChainError)

/-- Modelled from the spec: the state of the ProxyRegistry of section 4.3, the
records in the order they were registered. -/
abbrev ProxyRegistry := List ProxyRecord

/-- Modelled from the spec: `ProxyRegistry.get` of section 4.3. -/
def ProxyRegistry.get (registry : ProxyRegistry) (proxyAddress : Address) :
    Except Error ProxyRecord :=
  match registry.find? (fun r => r.proxyAddress == proxyAddress) with
  | some record => .ok record
  | none => .error .UnknownProxy

/-- Modelled from the spec: `ProxyRegistry.register` of section 4.3. -/
def ProxyRegistry.register (registry : ProxyRegistry) (proxyAddress implementation admin : Address)
    (layout : LayoutDescription) : Except Error ProxyRegistry :=
  if registry.any (fun r => r.proxyAddress == proxyAddress) then .error .DuplicateProxy
  else .ok (registry ++ [⟨proxyAddress, implementation, admin, layout⟩])

/-- Modelled from the spec: `ProxyRegistry.recordUpgrade` of section 4.3. -/
def ProxyRegistry.recordUpgrade (registry : ProxyRegistry) (proxyAddress newImplementation : Address)
    (newLayout : LayoutDescription) : Except Error ProxyRegistry :=
  if registry.any (fun r => r.proxyAddress == proxyAddress) then
    .ok (registry.map (fun r =>
      if r.proxyAddress == proxyAddress then
        ⟨r.proxyAddress, newImplementation, r.adminAddress, newLayout⟩
      else r))
  else .error .UnknownProxy

/-- Modelled from the spec: what the deployer and the orchestrator act on, the
registry of the session (section 4.3) and the state `χ` of the chain (section 5). -/
structure World (χ : Type) where
  registry : ProxyRegistry
  chain : χ

/-- Modelled from the spec: what the deployer and the orchestrator consume
(sections 4.1 and 6), a parameter here.  `extractLayout` is the LayoutExtractor
applied to what the compiler declares for an implementation, `none` standing for
`UnsupportedType`; the other fields are the steps that touch the chain, each a
single-outcome operation on the chain state. -/
structure Collaborators (χ Impl : Type) where
  extractLayout : Impl → Option LayoutDescription
  deployImplementation : Impl → χ → Except ChainError Address × χ
  deployProxyContract : Address → χ → Except ChainError Address × χ
  invokeInitializer : Address → JSValue → χ → Except ChainError Unit × χ
  repoint : Address → Address → χ → Except ChainError Unit × χ
  migrationHook : Impl → Option (Address → χ → Except ChainError Unit × χ)
  admin : Address

/-- Every step that touches the chain resolves. -/
structure Collaborators.Reliable {χ Impl : Type} (c : Collaborators χ Impl) : Prop where
  deployImplementation : ∀ impl s, ∃ a, (c.deployImplementation impl s).1 = .ok a
  deployProxyContract : ∀ a s, ∃ p, (c.deployProxyContract a s).1 = .ok p
  invokeInitializer : ∀ p args s, (c.invokeInitializer p args s).1 = .ok ()
  repoint : ∀ p a s, (c.repoint p a s).1 = .ok ()
  migrationHook : ∀ impl hook, c.migrationHook impl = some hook → ∀ p s, (hook p s).1 = .ok ()

/-- Modelled from the spec: `ProxyDeployer.deployProxy` of section 4.4, steps (a)
to (e); a failing step aborts and leaves the registry as it was. -/
def ProxyDeployer.deployProxy {χ Impl : Type} (c : Collaborators χ Impl) (impl : Impl)
    (initArgs : JSValue) (w : World χ) : Except Error ProxyRecord × World χ :=
  match c.deployImplementation impl w.chain with
  | (.error e, ch1) => (.error (.chain e), ⟨w.registry, ch1⟩)
  | (.ok implAddress, ch1) =>
    match c.deployProxyContract implAddress ch1 with
    | (.error e, ch2) => (.error (.chain e), ⟨w.registry, ch2⟩)
    | (.ok proxyAddress, ch2) =>
      match c.invokeInitializer proxyAddress initArgs ch2 with
      | (.error e, ch3) => (.error (.chain e), ⟨w.registry, ch3⟩)
      | (.ok _, ch3) =>
        match c.extractLayout impl with
        | none => (.error .UnsupportedType, ⟨w.registry, ch3⟩)
        | some layout =>
          match w.registry.register proxyAddress implAddress c.admin layout with
          | .error e => (.error e, ⟨w.registry, ch3⟩)
          | .ok registry => (.ok ⟨proxyAddress, implAddress, c.admin, layout⟩, ⟨registry, ch3⟩)

/-- Modelled from the spec: what a successful upgrade returns (sections 4.5 and 6),
the updated record and, for a forced upgrade, the reasons of the decision as a
warning record. -/
structure Upgraded where
  record : ProxyRecord
  warnings : List Reason

/-- Modelled from the spec: the optional post-upgrade migration hook of section
4.5, step 5. -/
def runMigrationHook {χ Impl : Type} (c : Collaborators χ Impl) (impl : Impl)
    (proxyAddress : Address) (ch : χ) : Except ChainError Unit × χ :=
  match c.migrationHook impl with
  | none => (.ok (), ch)
  | some hook => hook proxyAddress ch

/-- Modelled from the spec: `UpgradeOrchestrator.upgrade` of section 4.5, steps 1
to 6. -/
def UpgradeOrchestrator.upgrade {χ Impl : Type} (policy : ComparatorPolicy)
    (c : Collaborators χ Impl) (proxyAddress : Address) (newImpl : Impl) (force : Bool)
    (w : World χ) :
    Except Error Upgraded × World χ :=
  -- 1. look up the record
  match w.registry.get proxyAddress with
  | .error e => (.error e, w)
  | .ok record =>
    -- 2. extract the layout of the candidate
    match c.extractLayout newImpl with
    | none => (.error .UnsupportedType, w)
    | some newLayout =>
      -- 3. compare, 4. abort on a blocking decision unless forced
      let decision := LayoutComparator policy record.lastLayout newLayout
      if decision.isBlocking && !force then (.error (.UpgradeBlocked decision), w)
      else
        -- 5. deploy the implementation if needed, repoint, migrate, record
        match c.deployImplementation newImpl w.chain with
        | (.error e, ch1) => (.error (.chain e), ⟨w.registry, ch1⟩)
        | (.ok implAddress, ch1) =>
          match c.repoint proxyAddress implAddress ch1 with
          | (.error e, ch2) => (.error (.chain e), ⟨w.registry, ch2⟩)
          | (.ok _, ch2) =>
            match runMigrationHook c newImpl proxyAddress ch2 with
            | (.error e, ch3) => (.error (.chain e), ⟨w.registry, ch3⟩)
            | (.ok _, ch3) =>
              match w.registry.recordUpgrade proxyAddress implAddress newLayout with
              | .error e => (.error e, ⟨w.registry, ch3⟩)
              | .ok registry =>
                (.ok ⟨⟨proxyAddress, implAddress, record.adminAddress, newLayout⟩,
                  decision.reasons⟩, ⟨registry, ch3⟩)

/-- Modelled from the spec: the `force` flag of the options of `upgrade` (section
6); absent means not forced. -/
def forceFlag (opts : JSValue) : Bool :=
  match opts.getProp "force" with
  | some (.bool b) => b
  | _ => false

/-- Modelled from the spec: the framework of the sources when the components of the
specification stand behind it (section 6): `getContractFactory` asks the compiler for the named
contract, `upgrades.deployProxy` is `ProxyDeployer.deployProxy` and
`upgrades.upgradeProxy` is `UpgradeOrchestrator.upgrade` on the address of the
proxy it is given. -/
def specFramework {χ Impl : Type} (policy : ComparatorPolicy) (c : Collaborators χ Impl)
    (compiler : String → Impl) :
    Framework (World χ) Impl ProxyRecord Error where
  getContractFactory := fun name w => (.ok (compiler name), w)
  deployProxy := fun factory args _ w => ProxyDeployer.deployProxy c factory args w
  upgradeProxy := fun proxy factory opts w =>
    match UpgradeOrchestrator.upgrade policy c proxy.proxyAddress factory (forceFlag opts) w with
    | (.ok upgraded, w2) => (.ok upgraded.record, w2)
    | (.error e, w2) => (.error e, w2)

/-! ## Sample layouts and collaborators -/

/-- The layout of the first version in the scenario of section 8: `name`, `symbol`. -/
def layoutV1 : LayoutDescription :=
  [.mk "name" .DynamicArray 0 32 0, .mk "symbol" .DynamicArray 0 32 1]

/-- The slot the second version appends: `baseURI`. -/
def layoutGrowth : LayoutDescription :=
  [.mk "baseURI" .DynamicArray 0 32 2]

/-- The layout of the reordering version in the scenario of section 8: `symbol`,
`name`. -/
def layoutReordered : LayoutDescription :=
  [.mk "symbol" .DynamicArray 0 32 0, .mk "name" .DynamicArray 0 32 1]

/-- A policy with storage slots of 32 bytes that judges no change ambiguous. -/
def samplePolicy : ComparatorPolicy :=
  ⟨32, fun _ _ => false⟩

/-- A sample implementation: the address it is deployed at and its layout. -/
structure SampleImpl where
  address : Address
  layout : LayoutDescription

/-- Collaborators that always resolve; the chain state counts the proxies created
and proxy number `n` gets the address `1000 + n`. -/
def sampleCollaborators : Collaborators Nat SampleImpl where
  extractLayout := fun impl => some impl.layout
  deployImplementation := fun impl s => (.ok impl.address, s)
  deployProxyContract := fun _ s => (.ok (1000 + s), s + 1)
  invokeInitializer := fun _ _ s => (.ok (), s)
  repoint := fun _ _ s => (.ok (), s)
  migrationHook := fun _ => none
  admin := 1

/-- The compiler of the sample: `Poap` has the layout `layoutV1`, every other
contract the layout `layoutV1 ++ layoutGrowth`. -/
def sampleCompiler (name : String) : SampleImpl :=
  if name = "Poap" then ⟨11, layoutV1⟩ else ⟨12, layoutV1 ++ layoutGrowth⟩

/-- The reasons the scenario of section 8 expects for the reordering version: slots
0 and 1 both flagged. -/
def reorderReasons : List Reason :=
  [⟨[0], "name", .Unsafe, some .DynamicArray, some .DynamicArray,
      "slot renamed, resized or moved"⟩,
   ⟨[1], "symbol", .Unsafe, some .DynamicArray, some .DynamicArray,
      "slot renamed, resized or moved"⟩]

/-- A compiler whose `PoapV2` reorders the slots of `Poap`. -/
def reorderingCompiler (name : String) : SampleImpl :=
  if name = "Poap" then ⟨11, layoutV1⟩ else ⟨14, layoutReordered⟩

/-! ## Sample frameworks -/

/-- A framework whose calls all resolve: factories are contract names, the
deployed proxy is `7`, the upgraded instance `8`. -/
def okFramework : Framework Unit String Nat String where
  getContractFactory := fun name s => (.ok name, s)
  deployProxy := fun _ _ _ s => (.ok 7, s)
  upgradeProxy := fun _ _ _ s => (.ok 8, s)

/-- A framework whose `deployProxy` rejects. -/
def deployFailsFramework : Framework Unit String Nat String where
  getContractFactory := fun name s => (.ok name, s)
  deployProxy := fun _ _ _ s => (.error "deploy reverted", s)
  upgradeProxy := fun _ _ _ s => (.ok 8, s)

/-- A framework whose `upgradeProxy` rejects. -/
def upgradeFailsFramework : Framework Unit String Nat String where
  getContractFactory := fun name s => (.ok name, s)
  deployProxy := fun _ _ _ s => (.ok 7, s)
  upgradeProxy := fun _ _ _ s => (.error "new storage layout is incompatible", s)

/-! # Theorems -/

/-! ## Case analysis of the two sources -/

theorem Scripts.main_workflow {σ Factory Proxy Err : Type}
    (fw : Framework σ Factory Proxy Err) (s0 : σ) : Workflow fw s0 (Scripts.main fw s0) := by
  unfold Scripts.main
  split
  · next e s1 h1 => exact .factoryRejected e s1 h1
  · next factory s1 h1 =>
    simp only []
    split
    · next e s2 h2 => exact .deployRejected factory e s1 s2 h1 h2
    · next proxy s2 h2 =>
      split
      · next e s3 h3 => exact .factory2Rejected factory proxy e s1 s2 s3 h1 h2 h3
      · next factory2 s3 h3 =>
        split
        · next e s4 h4 => exact .upgradeRejected factory factory2 proxy e s1 s2 s3 s4 h1 h2 h3 h4
        · next proxy2 s4 h4 => exact .resolved factory factory2 proxy proxy2 s1 s2 s3 s4 h1 h2 h3 h4

theorem storageLayoutConsistency_workflow {σ Factory Proxy Err : Type}
    (fw : Framework σ Factory Proxy Err) (s0 : σ) :
    Workflow fw s0 (storageLayoutConsistency fw s0) := by
  unfold storageLayoutConsistency
  split
  · next e s1 h1 => exact .factoryRejected e s1 h1
  · next factory s1 h1 =>
    simp only []
    split
    · next e s2 h2 => exact .deployRejected factory e s1 s2 h1 h2
    · next proxy s2 h2 =>
      split
      · next e s3 h3 => exact .factory2Rejected factory proxy e s1 s2 s3 h1 h2 h3
      · next factory2 s3 h3 =>
        split
        · next e s4 h4 => exact .upgradeRejected factory factory2 proxy e s1 s2 s3 s4 h1 h2 h3 h4
        · next proxy2 s4 h4 => exact .resolved factory factory2 proxy proxy2 s1 s2 s3 s4 h1 h2 h3 h4

/-! ## Properties of the script and of the test -/

/-- C1: in `main` and in the test alike, whenever `upgrades.upgradeProxy` is called
its first argument is the value `upgrades.deployProxy` resolved to, that resolution
comes earlier in the run, and `deployProxy` is called nowhere else in the run. -/
theorem upgrade_targets_deployed_proxy {σ Factory Proxy Err : Type}
    (fw : Framework σ Factory Proxy Err) (s0 : σ) (run : Run σ Factory Proxy Err)
    (hrun : run = Scripts.main fw s0 ∨ run = storageLayoutConsistency fw s0)
    (p : Proxy) (f : Factory) (o : JSValue) (r : Except Err Proxy)
    (hcall : Event.upgradeProxy p f o r ∈ run.calls) :
    ∃ pre post f0 a0 o0 s1 s2,
      fw.deployProxy f0 a0 o0 s1 = (.ok p, s2) ∧
      run.calls = pre ++ Event.deployProxy f0 a0 o0 (.ok p) :: post ∧
      Event.upgradeProxy p f o r ∈ post ∧
      (∀ ev ∈ pre ++ post, ev.isDeploy = false) := by
  have hw : Workflow fw s0 run := by
    rcases hrun with h | h
    · exact h ▸ Scripts.main_workflow fw s0
    · exact h ▸ storageLayoutConsistency_workflow fw s0
  cases hw with
  | factoryRejected e s1 h1 => simp at hcall
  | deployRejected factory e s1 s2 h1 h2 => simp at hcall
  | factory2Rejected factory proxy e s1 s2 s3 h1 h2 h3 => simp at hcall
  | upgradeRejected factory factory2 proxy e s1 s2 s3 s4 h1 h2 h3 h4 =>
    simp at hcall
    obtain ⟨rfl, rfl, rfl, rfl⟩ := hcall
    refine ⟨[.getContractFactory "Poap" (.ok factory)], _, factory, _, _, s1, s2, h2, rfl, ?_, ?_⟩
    · simp
    · simp [Event.isDeploy]
  | resolved factory factory2 proxy proxy2 s1 s2 s3 s4 h1 h2 h3 h4 =>
    simp at hcall
    obtain ⟨rfl, rfl, rfl, rfl⟩ := hcall
    refine ⟨[.getContractFactory "Poap" (.ok factory)], _, factory, _, _, s1, s2, h2, rfl, ?_, ?_⟩
    · simp
    · simp [Event.isDeploy]

theorem upgrade_targets_deployed_proxy_witness :
    ∃ pre post f0 a0 o0 s1 s2,
      okFramework.deployProxy f0 a0 o0 s1 = (.ok 7, s2) ∧
      (Scripts.main okFramework ()).calls = pre ++ Event.deployProxy f0 a0 o0 (.ok 7) :: post ∧
      Event.upgradeProxy 7 "PoapV2" (.obj []) (.ok 8) ∈ post ∧
      (∀ ev ∈ pre ++ post, ev.isDeploy = false) :=
  upgrade_targets_deployed_proxy okFramework () (Scripts.main okFramework ()) (Or.inl rfl)
    7 "PoapV2" (.obj []) (.ok 8)
    (List.Mem.tail _ (List.Mem.tail _ (List.Mem.tail _ (List.Mem.head _))))

/-- C2: in `main` and in the test alike, once `getContractFactory('Poap')` has
resolved the run calls `upgrades.deployProxy` on the factory with the argument list
`["Poap", "POAP", "somebase/", []]` and the initializer
`initialize(string,string,string,address[])`, and it calls `deployProxy` with nothing
else; the list has four elements, the signature names four parameters, and each
argument has the shape of the parameter at its position (string, string, string,
list of addresses). -/
theorem initializer_arguments_match_signature {σ Factory Proxy Err : Type}
    (fw : Framework σ Factory Proxy Err) (s0 : σ) (run : Run σ Factory Proxy Err)
    (hrun : run = Scripts.main fw s0 ∨ run = storageLayoutConsistency fw s0) :
    (∀ factory s1, fw.getContractFactory "Poap" s0 = (.ok factory, s1) →
      Event.deployProxy factory
        (.arr [.str "Poap", .str "POAP", .str "somebase/", .arr []])
        (.obj [("initializer", .str "initialize(string,string,string,address[])")])
        (fw.deployProxy factory
          (.arr [.str "Poap", .str "POAP", .str "somebase/", .arr []])
          (.obj [("initializer", .str "initialize(string,string,string,address[])")]) s1).1
        ∈ run.calls) ∧
    (∀ f a o r, Event.deployProxy f a o r ∈ run.calls →
      ∃ items sig,
        a = .arr items ∧ o = .obj [("initializer", .str sig)] ∧
        o.getProp "initializer" = some (.str sig) ∧
        items = [.str "Poap", .str "POAP", .str "somebase/", .arr []] ∧
        sig = "initialize(string,string,string,address[])" ∧
        signatureParams sig = ["string", "string", "string", "address[]"] ∧
        items.length = 4 ∧ items.length = (signatureParams sig).length ∧
        argsMatch items (signatureParams sig) = true) := by
  have hw : Workflow fw s0 run := by
    rcases hrun with h | h
    · exact h ▸ Scripts.main_workflow fw s0
    · exact h ▸ storageLayoutConsistency_workflow fw s0
  constructor
  · intro factory s1 hf
    cases hw with
    | factoryRejected e t1 h1 => rw [h1] at hf; simp at hf
    | deployRejected factory0 e t1 t2 h1 h2 =>
      rw [h1] at hf; simp at hf; obtain ⟨rfl, rfl⟩ := hf
      simp [h2]
    | factory2Rejected factory0 proxy e t1 t2 t3 h1 h2 h3 =>
      rw [h1] at hf; simp at hf; obtain ⟨rfl, rfl⟩ := hf
      simp [h2]
    | upgradeRejected factory0 factory2 proxy e t1 t2 t3 t4 h1 h2 h3 h4 =>
      rw [h1] at hf; simp at hf; obtain ⟨rfl, rfl⟩ := hf
      simp [h2]
    | resolved factory0 factory2 proxy proxy2 t1 t2 t3 t4 h1 h2 h3 h4 =>
      rw [h1] at hf; simp at hf; obtain ⟨rfl, rfl⟩ := hf
      simp [h2]
  · intro f a o r hcall
    have key : a = .arr [.str "Poap", .str "POAP", .str "somebase/", .arr []] ∧
        o = .obj [("initializer", .str "initialize(string,string,string,address[])")] := by
      cases hw <;> simp at hcall <;> exact ⟨hcall.2.1, hcall.2.2.1⟩
    obtain ⟨rfl, rfl⟩ := key
    exact ⟨_, _, rfl, rfl, by simp [JSValue.getProp], rfl, rfl, by decide, rfl, by decide,
      by decide⟩

theorem initializer_arguments_match_signature_witness :
    Event.deployProxy "Poap"
        (.arr [.str "Poap", .str "POAP", .str "somebase/", .arr []])
        (.obj [("initializer", .str "initialize(string,string,string,address[])")])
        (.ok 7)
      ∈ (Scripts.main okFramework ()).calls ∧
    Event.deployProxy "Poap"
        (.arr [.str "Poap", .str "POAP", .str "somebase/", .arr []])
        (.obj [("initializer", .str "initialize(string,string,string,address[])")])
        (.error "deploy reverted")
      ∈ (storageLayoutConsistency deployFailsFramework ()).calls ∧
    ∃ items sig,
      JSValue.arr [.str "Poap", .str "POAP", .str "somebase/", .arr []] = .arr items ∧
      JSValue.obj [("initializer", .str "initialize(string,string,string,address[])")]
        = .obj [("initializer", .str sig)] ∧
      (JSValue.obj [("initializer", .str "initialize(string,string,string,address[])")]).getProp
        "initializer" = some (.str sig) ∧
      items = [.str "Poap", .str "POAP", .str "somebase/", .arr []] ∧
      sig = "initialize(string,string,string,address[])" ∧
      signatureParams sig = ["string", "string", "string", "address[]"] ∧
      items.length = 4 ∧ items.length = (signatureParams sig).length ∧
      argsMatch items (signatureParams sig) = true :=
  ⟨(initializer_arguments_match_signature okFramework () (Scripts.main okFramework ())
      (Or.inl rfl)).1 "Poap" () rfl,
   (initializer_arguments_match_signature deployFailsFramework ()
      (storageLayoutConsistency deployFailsFramework ()) (Or.inr rfl)).1 "Poap" () rfl,
   (initializer_arguments_match_signature okFramework () (Scripts.main okFramework ())
      (Or.inl rfl)).2 "Poap" _ _ (.ok 7)
      ((initializer_arguments_match_signature okFramework () (Scripts.main okFramework ())
        (Or.inl rfl)).1 "Poap" () rfl)⟩

/-- C6: the script exits with code 1 exactly when some external call of `main`
rejected and with code 0 exactly when all four calls were made and resolved; when
a call rejected with `e` the script printed exactly `e` before exiting with 1, and
nothing is printed on exit 0. -/
theorem script_exit_reports_rejection {σ Factory Proxy Err : Type}
    (fw : Framework σ Factory Proxy Err) (s0 : σ) :
    ((Scripts.script fw s0).exitCode = 1 ↔
      ∃ ev ∈ (Scripts.main fw s0).calls, ev.rejection ≠ none) ∧
    ((Scripts.script fw s0).exitCode = 0 ↔
      ((Scripts.main fw s0).calls.length = 4 ∧
        ∀ ev ∈ (Scripts.main fw s0).calls, ev.rejection = none)) ∧
    (∀ ev ∈ (Scripts.main fw s0).calls, ∀ e, ev.rejection = some e →
      (Scripts.script fw s0).stderr = [e] ∧ (Scripts.script fw s0).exitCode = 1) ∧
    ((Scripts.script fw s0).exitCode = 0 → (Scripts.script fw s0).stderr = []) := by
  have hw := Scripts.main_workflow fw s0
  unfold Scripts.script
  generalize Scripts.main fw s0 = run at hw
  cases hw <;> simp [Event.rejection]

/-- C7: in `main` and in the test alike, every call of `upgrades.upgradeProxy`
passes the empty options object, so no property of it (a force or skip-check flag
in particular) is set. -/
theorem upgrade_options_empty {σ Factory Proxy Err : Type}
    (fw : Framework σ Factory Proxy Err) (s0 : σ) (run : Run σ Factory Proxy Err)
    (hrun : run = Scripts.main fw s0 ∨ run = storageLayoutConsistency fw s0)
    (p : Proxy) (f : Factory) (o : JSValue) (r : Except Err Proxy)
    (hcall : Event.upgradeProxy p f o r ∈ run.calls) :
    o = .obj [] ∧ ∀ key, o.getProp key = none := by
  have hw : Workflow fw s0 run := by
    rcases hrun with h | h
    · exact h ▸ Scripts.main_workflow fw s0
    · exact h ▸ storageLayoutConsistency_workflow fw s0
  have key : o = .obj [] := by
    cases hw <;> simp at hcall <;> exact hcall.2.2.1
  subst key
  exact ⟨rfl, fun _ => rfl⟩

theorem upgrade_options_empty_witness :
    JSValue.obj [] = .obj [] ∧ ∀ key, (JSValue.obj []).getProp key = none :=
  upgrade_options_empty upgradeFailsFramework () (Scripts.main upgradeFailsFramework ())
    (Or.inl rfl) 7 "PoapV2" (.obj []) (.error "new storage layout is incompatible")
    (List.Mem.tail _ (List.Mem.tail _ (List.Mem.tail _ (List.Mem.head _))))

/-- C8: when `main` resolves, its external calls are exactly
`getContractFactory('Poap')`, `deployProxy`, `getContractFactory('PoapV2')`,
`upgradeProxy`, in this order, each once and each resolved; the proxy upgraded is
the one deployed and nothing is called between the deploy and the upgrade but the
second factory lookup. -/
theorem resolved_run_makes_four_calls {σ Factory Proxy Err : Type}
    (fw : Framework σ Factory Proxy Err) (s0 : σ)
    (hok : (Scripts.main fw s0).outcome = .ok ()) :
    ∃ factory factory2 proxy proxy2,
      (Scripts.main fw s0).calls =
        [.getContractFactory "Poap" (.ok factory),
         .deployProxy factory (.arr [.str "Poap", .str "POAP", .str "somebase/", .arr []])
           (.obj [("initializer", .str "initialize(string,string,string,address[])")])
           (.ok proxy),
         .getContractFactory "PoapV2" (.ok factory2),
         .upgradeProxy proxy factory2 (.obj []) (.ok proxy2)] := by
  have hw := Scripts.main_workflow fw s0
  generalize Scripts.main fw s0 = run at hw hok
  cases hw <;> simp at hok
  exact ⟨_, _, _, _, rfl⟩

theorem resolved_run_makes_four_calls_witness :
    ∃ factory factory2 proxy proxy2,
      (Scripts.main okFramework ()).calls =
        [.getContractFactory "Poap" (.ok factory),
         .deployProxy factory (.arr [.str "Poap", .str "POAP", .str "somebase/", .arr []])
           (.obj [("initializer", .str "initialize(string,string,string,address[])")])
           (.ok proxy),
         .getContractFactory "PoapV2" (.ok factory2),
         .upgradeProxy proxy factory2 (.obj []) (.ok proxy2)] :=
  resolved_run_makes_four_calls okFramework () rfl

/-- C9: in `main` and in the test alike, when `getContractFactory('Poap')` or
`deployProxy` rejects with `e`, the run calls neither `getContractFactory('PoapV2')`
nor `upgradeProxy`, and it rejects with `e`. -/
theorem failed_deploy_not_upgraded {σ Factory Proxy Err : Type}
    (fw : Framework σ Factory Proxy Err) (s0 : σ) (run : Run σ Factory Proxy Err)
    (hrun : run = Scripts.main fw s0 ∨ run = storageLayoutConsistency fw s0)
    (ev : Event Factory Proxy Err) (hev : ev ∈ run.calls)
    (hstep : ev.isFactoryOf "Poap" = true ∨ ev.isDeploy = true)
    (e : Err) (hrej : ev.rejection = some e) :
    (∀ later ∈ run.calls, later.isFactoryOf "PoapV2" = false ∧ later.isUpgrade = false) ∧
    run.outcome = .error e := by
  have hw : Workflow fw s0 run := by
    rcases hrun with h | h
    · exact h ▸ Scripts.main_workflow fw s0
    · exact h ▸ storageLayoutConsistency_workflow fw s0
  cases hw <;> simp at hev
  · subst hev
    simp [Event.rejection] at hrej
    simp [Event.isFactoryOf, Event.isUpgrade, hrej]
  · rcases hev with rfl | rfl
    · simp [Event.rejection] at hrej
    · simp [Event.rejection] at hrej
      simp [Event.isFactoryOf, Event.isUpgrade, hrej]
  · rcases hev with rfl | rfl | rfl
    · simp [Event.rejection] at hrej
    · simp [Event.rejection] at hrej
    · simp [Event.isFactoryOf, Event.isDeploy] at hstep
  · rcases hev with rfl | rfl | rfl | rfl
    · simp [Event.rejection] at hrej
    · simp [Event.rejection] at hrej
    · simp [Event.rejection] at hrej
    · simp [Event.isFactoryOf, Event.isDeploy] at hstep
  · rcases hev with rfl | rfl | rfl | rfl <;> simp [Event.rejection] at hrej

theorem failed_deploy_not_upgraded_witness :
    (∀ later ∈ (storageLayoutConsistency deployFailsFramework ()).calls,
      later.isFactoryOf "PoapV2" = false ∧ later.isUpgrade = false) ∧
    (storageLayoutConsistency deployFailsFramework ()).outcome = .error "deploy reverted" :=
  failed_deploy_not_upgraded deployFailsFramework ()
    (storageLayoutConsistency deployFailsFramework ()) (Or.inr rfl)
    (.deployProxy "Poap" (.arr [.str "Poap", .str "POAP", .str "somebase/", .arr []])
      (.obj [("initializer", .str "initialize(string,string,string,address[])")])
      (.error "deploy reverted"))
    (List.Mem.tail _ (List.Mem.head _)) (Or.inr rfl) "deploy reverted" rfl

/-- C10: against every framework and from every state of the outside world, the
body of the test and `main` make the same external calls with the same arguments
and results, settle the same way (resolved, or rejected with the same error) and
leave the outside world in the same state. -/
theorem test_body_equals_main {σ Factory Proxy Err : Type}
    (fw : Framework σ Factory Proxy Err) (s0 : σ) :
    (storageLayoutConsistency fw s0).calls = (Scripts.main fw s0).calls ∧
    (storageLayoutConsistency fw s0).outcome = (Scripts.main fw s0).outcome ∧
    (storageLayoutConsistency fw s0).final = (Scripts.main fw s0).final := by
  have h1 := storageLayoutConsistency_workflow fw s0
  have h2 := Scripts.main_workflow fw s0
  generalize storageLayoutConsistency fw s0 = a at h1
  generalize Scripts.main fw s0 = b at h2
  cases h1 <;> cases h2 <;> simp_all

/-! ## The layout comparison -/

mutual
theorem TypeTag.beq_refl : ∀ t : TypeTag, t.beq t = true
  | .Primitive _ => by simp [TypeTag.beq]
  | .DynamicArray => by simp [TypeTag.beq]
  | .FixedArray _ t => by simp [TypeTag.beq, TypeTag.beq_refl t]
  | .Mapping k v => by simp [TypeTag.beq, TypeTag.beq_refl k, TypeTag.beq_refl v]
  | .Struct fs => by simp [TypeTag.beq, SlotDescriptor.beqList_refl fs]
theorem SlotDescriptor.slot_beq_refl : ∀ s : SlotDescriptor, s.beq s = true
  | .mk _ t _ _ _ => by simp [SlotDescriptor.beq, TypeTag.beq_refl t]
theorem SlotDescriptor.beqList_refl : ∀ l : List SlotDescriptor, SlotDescriptor.beqList l l = true
  | [] => by simp [SlotDescriptor.beqList]
  | a :: as => by
    simp [SlotDescriptor.beqList, SlotDescriptor.slot_beq_refl a, SlotDescriptor.beqList_refl as]
end

mutual
theorem TypeTag.eq_of_beq : ∀ t u : TypeTag, t.beq u = true → t = u
  | .Primitive _, u => by cases u <;> simp [TypeTag.beq]
  | .DynamicArray, u => by cases u <;> simp [TypeTag.beq]
  | .FixedArray _ t, u => by
    cases u <;> simp [TypeTag.beq]
    intro h1 h2
    exact ⟨h1, TypeTag.eq_of_beq t _ h2⟩
  | .Mapping k v, u => by
    cases u <;> simp [TypeTag.beq]
    intro h1 h2
    exact ⟨TypeTag.eq_of_beq k _ h1, TypeTag.eq_of_beq v _ h2⟩
  | .Struct fs, u => by
    cases u <;> simp [TypeTag.beq]
    intro h
    exact SlotDescriptor.eq_of_beqList fs _ h
theorem SlotDescriptor.slot_eq_of_beq : ∀ s r : SlotDescriptor, s.beq r = true → s = r
  | .mk _ t _ _ _, .mk _ t2 _ _ _ => by
    simp [SlotDescriptor.beq]
    intro h1 h2 h3 h4 h5
    exact ⟨h1, TypeTag.eq_of_beq t t2 h2, h3, h4, h5⟩
theorem SlotDescriptor.eq_of_beqList :
    ∀ l m : List SlotDescriptor, SlotDescriptor.beqList l m = true → l = m
  | [], m => by cases m <;> simp [SlotDescriptor.beqList]
  | a :: as, m => by
    cases m with
    | nil => simp [SlotDescriptor.beqList]
    | cons b bs =>
      simp [SlotDescriptor.beqList]
      intro h1 h2
      exact ⟨SlotDescriptor.slot_eq_of_beq a b h1, SlotDescriptor.eq_of_beqList as bs h2⟩
end

theorem compareSlot_self (policy : ComparatorPolicy) (path : List Nat) (i : Nat)
    (s : SlotDescriptor) : compareSlot policy path i s (some s) = [] := by
  cases s with
  | mk name t off size idx =>
    simp [compareSlot, SlotDescriptor.declaredType, SlotDescriptor.byteOffset,
      SlotDescriptor.byteSize, SlotDescriptor.name, SlotDescriptor.slotIndex, TypeTag.beq_refl]

theorem checkAppended_contiguous (slotBytes : Nat) (path : List Nat) (ext : List SlotDescriptor) :
    ∀ i prevEnd, contiguousFrom slotBytes prevEnd ext = true →
      checkAppended slotBytes path i prevEnd ext = [] := by
  induction ext with
  | nil => intro i prevEnd _; simp [checkAppended]
  | cons s rest ih =>
    intro i prevEnd h
    simp [contiguousFrom] at h
    simp [checkAppended, h.1, ih (i + 1) _ h.2]

theorem compareFrom_append (policy : ComparatorPolicy) (path : List Nat)
    (layout ext : LayoutDescription) :
    ∀ i prevEnd, compareFrom policy path i prevEnd layout (layout ++ ext) =
      checkAppended policy.slotBytes path (i + layout.length)
        (layoutEnd policy.slotBytes prevEnd layout) ext := by
  induction layout with
  | nil => intro i prevEnd; simp [compareFrom, layoutEnd]
  | cons s rest ih =>
    intro i prevEnd
    simp [compareFrom, compareSlot_self, ih, layoutEnd]
    congr 1
    omega

theorem LayoutComparator_append (policy : ComparatorPolicy) (layout ext : LayoutDescription)
    (hcont : contiguousFrom policy.slotBytes (layoutEnd policy.slotBytes 0 layout) ext = true) :
    LayoutComparator policy layout (layout ++ ext) = .Safe := by
  simp [LayoutComparator, compareFrom_append, checkAppended_contiguous _ _ _ _ _ hcont]

theorem LayoutComparator_self (policy : ComparatorPolicy) (layout : LayoutDescription) :
    LayoutComparator policy layout layout = .Safe := by
  have h := LayoutComparator_append policy layout [] rfl
  simpa using h

theorem LayoutComparator_reordered :
    LayoutComparator samplePolicy layoutV1 layoutReordered = .Unsafe reorderReasons ∧
    reorderReasons.length = 2 :=
  ⟨rfl, rfl⟩

theorem LayoutComparator_gapped_append :
    LayoutComparator samplePolicy layoutV1 (layoutV1 ++ [.mk "baseURI" .DynamicArray 0 32 3]) =
      .Unsafe [⟨[2], "baseURI", .Unsafe, none, some .DynamicArray, "slot gap / reuse risk"⟩] :=
  rfl

theorem LayoutComparator_overlapping_append :
    LayoutComparator samplePolicy layoutV1 (layoutV1 ++ [.mk "baseURI" .DynamicArray 0 32 0]) =
      .Unsafe [⟨[2], "baseURI", .Unsafe, none, some .DynamicArray, "slot gap / reuse risk"⟩] :=
  rfl

/-! ## Deployer and orchestrator -/

theorem ProxyRegistry.get_append_fresh (registry : ProxyRegistry) (record : ProxyRecord)
    (hfresh : registry.any (fun r => r.proxyAddress == record.proxyAddress) = false) :
    ProxyRegistry.get (registry ++ [record]) record.proxyAddress = .ok record := by
  have hnone : registry.find? (fun r => r.proxyAddress == record.proxyAddress) = none := by
    rw [List.find?_eq_none]
    intro r hr hp
    have : registry.any (fun r => r.proxyAddress == record.proxyAddress) = true :=
      List.any_eq_true.mpr ⟨r, hr, hp⟩
    rw [hfresh] at this
    cases this
  simp [ProxyRegistry.get, List.find?_append, hnone]

theorem ProxyDeployer.deployProxy_ok {χ Impl : Type} (c : Collaborators χ Impl) (impl : Impl)
    (args : JSValue) (w w2 : World χ) (record : ProxyRecord)
    (h : ProxyDeployer.deployProxy c impl args w = (.ok record, w2)) :
    c.extractLayout impl = some record.lastLayout ∧
    w2.registry = w.registry ++ [record] ∧
    w.registry.any (fun r => r.proxyAddress == record.proxyAddress) = false := by
  unfold ProxyDeployer.deployProxy at h
  split at h
  · simp at h
  · split at h
    · simp at h
    · split at h
      · simp at h
      · split at h
        · simp at h
        · next layout hl =>
          split at h
          · simp at h
          · next registry hreg =>
            simp at h
            obtain ⟨rfl, rfl⟩ := h
            unfold ProxyRegistry.register at hreg
            split at hreg
            · simp at hreg
            · next hany =>
              simp at hreg
              exact ⟨hl, hreg.symm, by simpa using hany⟩

theorem ProxyDeployer.deployProxy_error {χ Impl : Type} (c : Collaborators χ Impl) (impl : Impl)
    (args : JSValue) (w w2 : World χ) (e : Error)
    (h : ProxyDeployer.deployProxy c impl args w = (.error e, w2)) :
    (∀ d, e ≠ .UpgradeBlocked d) ∧ w2.registry = w.registry := by
  unfold ProxyDeployer.deployProxy at h
  split at h
  · simp at h; obtain ⟨rfl, rfl⟩ := h; simp
  · split at h
    · simp at h; obtain ⟨rfl, rfl⟩ := h; simp
    · split at h
      · simp at h; obtain ⟨rfl, rfl⟩ := h; simp
      · split at h
        · simp at h; obtain ⟨rfl, rfl⟩ := h; simp
        · split at h
          · next e2 hreg =>
            simp at h
            obtain ⟨rfl, rfl⟩ := h
            unfold ProxyRegistry.register at hreg
            split at hreg
            · simp at hreg; subst hreg; simp
            · simp at hreg
          · simp at h

theorem UpgradeOrchestrator.upgrade_blocked {χ Impl : Type} (policy : ComparatorPolicy)
    (c : Collaborators χ Impl)
    (proxyAddress : Address) (newImpl : Impl) (w : World χ) (record : ProxyRecord)
    (newLayout : LayoutDescription)
    (hget : w.registry.get proxyAddress = .ok record)
    (hext : c.extractLayout newImpl = some newLayout)
    (hblock : (LayoutComparator policy record.lastLayout newLayout).isBlocking = true) :
    UpgradeOrchestrator.upgrade policy c proxyAddress newImpl false w =
      (.error (.UpgradeBlocked (LayoutComparator policy record.lastLayout newLayout)), w) := by
  simp [UpgradeOrchestrator.upgrade, hget, hext, hblock]

theorem UpgradeOrchestrator.upgrade_error {χ Impl : Type} (policy : ComparatorPolicy)
    (c : Collaborators χ Impl)
    (proxyAddress : Address) (newImpl : Impl) (force : Bool) (w w2 : World χ) (e : Error)
    (h : UpgradeOrchestrator.upgrade policy c proxyAddress newImpl force w = (.error e, w2)) :
    w2.registry = w.registry := by
  unfold UpgradeOrchestrator.upgrade at h
  split at h
  · simp at h; rw [← h.2]
  · split at h
    · simp at h; rw [← h.2]
    · simp only [] at h
      split at h
      · simp at h; rw [← h.2]
      · split at h
        · simp at h; rw [← h.2]
        · split at h
          · simp at h; rw [← h.2]
          · split at h
            · simp at h; rw [← h.2]
            · split at h
              · simp at h; rw [← h.2]
              · simp at h

theorem UpgradeOrchestrator.upgrade_safe_error {χ Impl : Type} (policy : ComparatorPolicy)
    (c : Collaborators χ Impl)
    (proxyAddress : Address) (newImpl : Impl) (force : Bool) (w w2 : World χ)
    (record : ProxyRecord) (newLayout : LayoutDescription) (e : Error)
    (hget : w.registry.get proxyAddress = .ok record)
    (hext : c.extractLayout newImpl = some newLayout)
    (hsafe : LayoutComparator policy record.lastLayout newLayout = .Safe)
    (h : UpgradeOrchestrator.upgrade policy c proxyAddress newImpl force w = (.error e, w2)) :
    ∀ d, e ≠ .UpgradeBlocked d := by
  simp [UpgradeOrchestrator.upgrade, hget, hext, hsafe, UpgradeDecision.isBlocking] at h
  split at h
  · simp at h; rw [← h.1]; simp
  · split at h
    · simp at h; rw [← h.1]; simp
    · split at h
      · simp at h; rw [← h.1]; simp
      · split at h
        · next e2 hrec =>
          simp at h
          rw [← h.1]
          unfold ProxyRegistry.recordUpgrade at hrec
          split at hrec
          · simp at hrec
          · simp at hrec; rw [← hrec]; simp
        · simp at h

theorem UpgradeOrchestrator.upgrade_reliable {χ Impl : Type} (policy : ComparatorPolicy)
    (c : Collaborators χ Impl)
    (hc : c.Reliable) (newImpl : Impl) (force : Bool) (ch : χ)
    (record : ProxyRecord) (newLayout : LayoutDescription)
    (hext : c.extractLayout newImpl = some newLayout)
    (hgo : (LayoutComparator policy record.lastLayout newLayout).isBlocking = false ∨ force = true) :
    ∃ a ch2,
      UpgradeOrchestrator.upgrade policy c record.proxyAddress newImpl force ⟨[record], ch⟩ =
        (.ok ⟨⟨record.proxyAddress, a, record.adminAddress, newLayout⟩,
            (LayoutComparator policy record.lastLayout newLayout).reasons⟩,
          ⟨[⟨record.proxyAddress, a, record.adminAddress, newLayout⟩], ch2⟩) ∧
      (c.deployImplementation newImpl ch).1 = .ok a := by
  have hcond : ((LayoutComparator policy record.lastLayout newLayout).isBlocking && !force) = false := by
    rcases hgo with h | h <;> simp [h]
  obtain ⟨a, ha⟩ := hc.deployImplementation newImpl ch
  rcases h1 : c.deployImplementation newImpl ch with ⟨r1, ch1⟩
  rw [h1] at ha
  simp at ha
  subst ha
  have hr := hc.repoint record.proxyAddress a ch1
  rcases h2 : c.repoint record.proxyAddress a ch1 with ⟨r2, ch2⟩
  rw [h2] at hr
  simp at hr
  subst hr
  have hm : ∃ ch3, runMigrationHook c newImpl record.proxyAddress ch2 = (.ok (), ch3) := by
    unfold runMigrationHook
    cases hh : c.migrationHook newImpl with
    | none => exact ⟨ch2, rfl⟩
    | some hook =>
      have := hc.migrationHook newImpl hook hh record.proxyAddress ch2
      rcases h3 : hook record.proxyAddress ch2 with ⟨r3, ch3⟩
      rw [h3] at this
      simp at this
      subst this
      exact ⟨ch3, h3⟩
  obtain ⟨ch3, hm⟩ := hm
  refine ⟨a, ch3, ?_, by simp [h1]⟩
  simp [UpgradeOrchestrator.upgrade, ProxyRegistry.get, hext, hcond, h1, h2, hm,
    ProxyRegistry.recordUpgrade]

theorem ProxyDeployer.deployProxy_reliable {χ Impl : Type} (c : Collaborators χ Impl)
    (hc : c.Reliable) (impl : Impl) (args : JSValue) (ch : χ) (layout : LayoutDescription)
    (hext : c.extractLayout impl = some layout) :
    ∃ p a ch2,
      ProxyDeployer.deployProxy c impl args ⟨[], ch⟩ =
        (.ok ⟨p, a, c.admin, layout⟩, ⟨[⟨p, a, c.admin, layout⟩], ch2⟩) := by
  obtain ⟨a, ha⟩ := hc.deployImplementation impl ch
  rcases h1 : c.deployImplementation impl ch with ⟨r1, ch1⟩
  rw [h1] at ha
  simp at ha
  subst ha
  obtain ⟨p, hp⟩ := hc.deployProxyContract a ch1
  rcases h2 : c.deployProxyContract a ch1 with ⟨r2, ch2⟩
  rw [h2] at hp
  simp at hp
  subst hp
  have hi := hc.invokeInitializer p args ch2
  rcases h3 : c.invokeInitializer p args ch2 with ⟨r3, ch3⟩
  rw [h3] at hi
  simp at hi
  subst hi
  exact ⟨p, a, ch3, by simp [ProxyDeployer.deployProxy, h1, h2, h3, hext, ProxyRegistry.register]⟩

/-- C3: comparing a layout with the layout formed by appending slots strictly after
its last slot, contiguous with no gap, yields Safe.  Hence, when the components of
the specification stand behind the framework and `Poap` and `PoapV2` are such a
pair of implementations, the test never fails with `UpgradeBlocked`; and when
moreover every step that touches the chain resolves, in a session that starts with
an empty registry, the deploy-then-upgrade sequence of the test resolves and the
registry then holds one proxy with the grown layout. -/
theorem pure_growth_accepted (policy : ComparatorPolicy) (layout ext : LayoutDescription)
    (hcont : contiguousFrom policy.slotBytes (layoutEnd policy.slotBytes 0 layout) ext = true) :
    LayoutComparator policy layout (layout ++ ext) = .Safe ∧
    ∀ {χ Impl : Type} (c : Collaborators χ Impl) (compiler : String → Impl) (w0 : World χ),
      c.extractLayout (compiler "Poap") = some layout →
      c.extractLayout (compiler "PoapV2") = some (layout ++ ext) →
      (∀ d, (storageLayoutConsistency (specFramework policy c compiler) w0).outcome
          ≠ .error (.UpgradeBlocked d)) ∧
      (c.Reliable → w0.registry = [] →
        (storageLayoutConsistency (specFramework policy c compiler) w0).outcome = .ok () ∧
        ∃ p a admin,
          (storageLayoutConsistency (specFramework policy c compiler) w0).final.registry
            = [⟨p, a, admin, layout ++ ext⟩]) := by
  have hsafe : LayoutComparator policy layout (layout ++ ext) = .Safe :=
    LayoutComparator_append policy layout ext hcont
  refine ⟨hsafe, ?_⟩
  intro χ Impl c compiler w0 hv1 hv2
  constructor
  · intro d
    have hw := storageLayoutConsistency_workflow (specFramework policy c compiler) w0
    generalize storageLayoutConsistency (specFramework policy c compiler) w0 = run at hw
    cases hw with
    | factoryRejected e s1 h1 => simp [specFramework] at h1
    | deployRejected factory e s1 s2 h1 h2 =>
      simp [specFramework] at h1 h2
      simpa using (ProxyDeployer.deployProxy_error c _ _ _ _ _ h2).1 d
    | factory2Rejected factory proxy e s1 s2 s3 h1 h2 h3 => simp [specFramework] at h3
    | upgradeRejected factory factory2 proxy e s1 s2 s3 s4 h1 h2 h3 h4 =>
      simp [specFramework] at h1 h2 h3 h4
      obtain ⟨rfl, rfl⟩ := h1
      obtain ⟨rfl, rfl⟩ := h3
      obtain ⟨hl, hreg, hfresh⟩ := ProxyDeployer.deployProxy_ok c _ _ _ _ _ h2
      have hlast : proxy.lastLayout = layout := by
        rw [hv1] at hl; exact (Option.some.inj hl).symm
      have hget : s2.registry.get proxy.proxyAddress = .ok proxy := by
        rw [hreg]; exact ProxyRegistry.get_append_fresh _ _ hfresh
      split at h4
      · simp at h4
      · next e2 w2 hup =>
        simp at h4
        obtain ⟨rfl, rfl⟩ := h4
        simpa using UpgradeOrchestrator.upgrade_safe_error policy c _ _ _ _ _ proxy _ _ hget hv2
          (hlast ▸ hsafe) hup d
    | resolved factory factory2 proxy proxy2 s1 s2 s3 s4 h1 h2 h3 h4 => simp
  · intro hc hreg
    obtain ⟨reg, ch0⟩ := w0
    simp at hreg
    subst hreg
    obtain ⟨p, a, ch2, hd⟩ := ProxyDeployer.deployProxy_reliable c hc (compiler "Poap")
      (.arr [.str "Poap", .str "POAP", .str "somebase/", .arr []]) ch0 layout hv1
    obtain ⟨a2, ch3, hu, -⟩ := UpgradeOrchestrator.upgrade_reliable policy c hc
      (compiler "PoapV2") (forceFlag (.obj [])) ch2 ⟨p, a, c.admin, layout⟩ (layout ++ ext) hv2
      (Or.inl (by simp [hsafe, UpgradeDecision.isBlocking]))
    simp [storageLayoutConsistency, specFramework, hd, hu]

theorem sampleCollaborators_reliable : sampleCollaborators.Reliable where
  deployImplementation := fun impl _ => ⟨impl.address, rfl⟩
  deployProxyContract := fun _ s => ⟨1000 + s, rfl⟩
  invokeInitializer := fun _ _ _ => rfl
  repoint := fun _ _ _ => rfl
  migrationHook := fun _ _ h => by simp [sampleCollaborators] at h

theorem pure_growth_accepted_witness :
    contiguousFrom samplePolicy.slotBytes (layoutEnd samplePolicy.slotBytes 0 layoutV1)
      layoutGrowth = true ∧
    LayoutComparator samplePolicy layoutV1 (layoutV1 ++ layoutGrowth) = .Safe ∧
    (∀ d, (storageLayoutConsistency (specFramework samplePolicy sampleCollaborators
      sampleCompiler) ⟨[], 0⟩).outcome ≠ .error (.UpgradeBlocked d)) ∧
    (storageLayoutConsistency (specFramework samplePolicy sampleCollaborators sampleCompiler)
      ⟨[], 0⟩).outcome = .ok () ∧
    ∃ p a admin, (storageLayoutConsistency (specFramework samplePolicy sampleCollaborators
      sampleCompiler) ⟨[], 0⟩).final.registry = [⟨p, a, admin, layoutV1 ++ layoutGrowth⟩] :=
  ⟨by decide,
   (pure_growth_accepted samplePolicy layoutV1 layoutGrowth (by decide)).1,
   ((pure_growth_accepted samplePolicy layoutV1 layoutGrowth (by decide)).2 sampleCollaborators
      sampleCompiler ⟨[], 0⟩ rfl rfl).1,
   ((pure_growth_accepted samplePolicy layoutV1 layoutGrowth (by decide)).2 sampleCollaborators
      sampleCompiler ⟨[], 0⟩ rfl rfl).2 sampleCollaborators_reliable rfl⟩

/-- C5: whenever the transition from the proxy's current implementation to the
candidate is Unsafe, the upgrade operation, called with the empty options of the
script and of the test, fails with `UpgradeBlocked` and leaves the registry and the
chain as they were, so the registry reports the same record, with the same current
implementation, for the proxy after the call as before.  In the script: when the
proxy `main` deployed meets such a candidate, `main` rejects with that error, its
last external call is the rejected `upgradeProxy` and the outside world stays as the
deployment left it; and against every framework a rejected `upgradeProxy` is the
last external call `main` makes. -/
theorem blocked_upgrade_changes_nothing {χ Impl : Type} (policy : ComparatorPolicy)
    (c : Collaborators χ Impl) (proxyAddress : Address) (newImpl : Impl) (w : World χ)
    (record : ProxyRecord) (newLayout : LayoutDescription) (reasons : List Reason)
    (hget : w.registry.get proxyAddress = .ok record)
    (hext : c.extractLayout newImpl = some newLayout)
    (hdecision : LayoutComparator policy record.lastLayout newLayout = .Unsafe reasons) :
    UpgradeOrchestrator.upgrade policy c proxyAddress newImpl (forceFlag (.obj [])) w =
      (.error (.UpgradeBlocked (.Unsafe reasons)), w) ∧
    (UpgradeOrchestrator.upgrade policy c proxyAddress newImpl (forceFlag (.obj []))
      w).2.registry.get proxyAddress = .ok record ∧
    (∀ (compiler : String → Impl) (proxy : ProxyRecord), proxy.proxyAddress = proxyAddress →
      (specFramework policy c compiler).upgradeProxy proxy newImpl (.obj []) w =
        (.error (.UpgradeBlocked (.Unsafe reasons)), w)) ∧
    (∀ (compiler : String → Impl) (w0 : World χ) (proxy : ProxyRecord),
      compiler "PoapV2" = newImpl → proxy.proxyAddress = proxyAddress →
      ProxyDeployer.deployProxy c (compiler "Poap")
        (.arr [.str "Poap", .str "POAP", .str "somebase/", .arr []]) w0 = (.ok proxy, w) →
      (Scripts.main (specFramework policy c compiler) w0).outcome =
        .error (.UpgradeBlocked (.Unsafe reasons)) ∧
      (Scripts.main (specFramework policy c compiler) w0).final = w ∧
      (Scripts.main (specFramework policy c compiler) w0).calls.getLast? =
        some (.upgradeProxy proxy newImpl (.obj [])
          (.error (.UpgradeBlocked (.Unsafe reasons))))) ∧
    (∀ {σ Factory Proxy Err : Type} (fw : Framework σ Factory Proxy Err) (s0 : σ)
      (p : Proxy) (f : Factory) (o : JSValue) (e : Err),
      Event.upgradeProxy p f o (.error e) ∈ (Scripts.main fw s0).calls →
      (∃ earlier, (Scripts.main fw s0).calls = earlier ++ [Event.upgradeProxy p f o (.error e)]) ∧
      (Scripts.main fw s0).outcome = .error e) := by
  have hf : forceFlag (.obj []) = false := rfl
  have hup : UpgradeOrchestrator.upgrade policy c proxyAddress newImpl (forceFlag (.obj [])) w =
      (.error (.UpgradeBlocked (.Unsafe reasons)), w) := by
    have := UpgradeOrchestrator.upgrade_blocked policy c proxyAddress newImpl w record newLayout
      hget hext (by simp [hdecision, UpgradeDecision.isBlocking])
    rw [hdecision] at this
    rw [hf]
    exact this
  have hfw : ∀ (compiler : String → Impl) (proxy : ProxyRecord),
      proxy.proxyAddress = proxyAddress →
      (specFramework policy c compiler).upgradeProxy proxy newImpl (.obj []) w =
        (.error (.UpgradeBlocked (.Unsafe reasons)), w) := by
    intro compiler proxy hp
    subst hp
    simp [specFramework, hup]
  refine ⟨hup, by rw [hup]; exact hget, hfw, ?_, ?_⟩
  · intro compiler w0 proxy hcomp hp hdeploy
    have hd : (specFramework policy c compiler).deployProxy (compiler "Poap")
        (.arr [.str "Poap", .str "POAP", .str "somebase/", .arr []])
        (.obj [("initializer", .str "initialize(string,string,string,address[])")]) w0
          = (.ok proxy, w) := by
      simp [specFramework, hdeploy]
    have hu := hfw compiler proxy hp
    have hg1 : (specFramework policy c compiler).getContractFactory "Poap" w0
        = (.ok (compiler "Poap"), w0) := rfl
    have hg2 : (specFramework policy c compiler).getContractFactory "PoapV2" w
        = (.ok newImpl, w) := by
      simp [specFramework, hcomp]
    simp [Scripts.main, hg1, hd, hg2, hu]
  · intro σ Factory Proxy Err fw s0 p f o e hcall
    have hw := Scripts.main_workflow fw s0
    generalize Scripts.main fw s0 = run at hw hcall
    cases hw with
    | factoryRejected e s1 h1 => simp at hcall
    | deployRejected factory e s1 s2 h1 h2 => simp at hcall
    | factory2Rejected factory proxy e s1 s2 s3 h1 h2 h3 => simp at hcall
    | upgradeRejected factory factory2 proxy e2 s1 s2 s3 s4 h1 h2 h3 h4 =>
      simp at hcall
      obtain ⟨rfl, rfl, rfl, rfl⟩ := hcall
      exact ⟨⟨[_, _, _], rfl⟩, rfl⟩
    | resolved factory factory2 proxy proxy2 s1 s2 s3 s4 h1 h2 h3 h4 => simp at hcall

theorem blocked_upgrade_changes_nothing_witness :
    LayoutComparator samplePolicy layoutV1 layoutReordered = .Unsafe reorderReasons ∧
    UpgradeOrchestrator.upgrade samplePolicy sampleCollaborators 1000 ⟨14, layoutReordered⟩
        (forceFlag (.obj [])) ⟨[⟨1000, 11, 1, layoutV1⟩], 1⟩ =
      (.error (.UpgradeBlocked (.Unsafe reorderReasons)), ⟨[⟨1000, 11, 1, layoutV1⟩], 1⟩) ∧
    (Scripts.main (specFramework samplePolicy sampleCollaborators reorderingCompiler)
      ⟨[], 0⟩).outcome = .error (.UpgradeBlocked (.Unsafe reorderReasons)) ∧
    (Scripts.main (specFramework samplePolicy sampleCollaborators reorderingCompiler)
      ⟨[], 0⟩).final = ⟨[⟨1000, 11, 1, layoutV1⟩], 1⟩ ∧
    (Scripts.main (specFramework samplePolicy sampleCollaborators reorderingCompiler)
      ⟨[], 0⟩).calls.getLast? =
        some (.upgradeProxy ⟨1000, 11, 1, layoutV1⟩ ⟨14, layoutReordered⟩ (.obj [])
          (.error (.UpgradeBlocked (.Unsafe reorderReasons)))) :=
  ⟨rfl,
   (blocked_upgrade_changes_nothing samplePolicy sampleCollaborators 1000
      ⟨14, layoutReordered⟩ ⟨[⟨1000, 11, 1, layoutV1⟩], 1⟩ ⟨1000, 11, 1, layoutV1⟩
      layoutReordered reorderReasons rfl rfl rfl).1,
   (blocked_upgrade_changes_nothing samplePolicy sampleCollaborators 1000
      ⟨14, layoutReordered⟩ ⟨[⟨1000, 11, 1, layoutV1⟩], 1⟩ ⟨1000, 11, 1, layoutV1⟩
      layoutReordered reorderReasons rfl rfl rfl).2.2.2.1 reorderingCompiler ⟨[], 0⟩
      ⟨1000, 11, 1, layoutV1⟩ rfl rfl rfl⟩
